import Mathlib

/-!
Shallow embedding of `src/system_monitor.py` (class `SystemMonitor`).

Modelling conventions:
* Timestamps: the source stores `datetime.now().isoformat()` strings and
  re-parses them with `datetime.fromisoformat`; subtraction yields a
  `timedelta` compared against `timedelta(minutes=...)` / `timedelta(hours=3)`.
  We model a timestamp as an `Int` number of seconds and a duration as an
  `Int` number of seconds; `now - since >= timedelta(minutes=m)` becomes
  `now - since ≥ 60 * m`.  Negative differences (clock skew) are representable,
  exactly as negative `timedelta`s are in Python.
* Usage percentages: Python floats compared with `>=` against numeric
  thresholds; we model them as `ℚ`.
* Python dicts (`disk_high_since`, `last_alert_sent`) are modelled as
  association lists with dict-style insert (overwrite) / delete / lookup.
* External effects (the HTTP POST of a webhook, a `psutil.disk_usage` call)
  are modelled by passing their outcome in as data.
-/

namespace SystemMonitor

/-- Outcome of the `requests.post` call inside `send_webhook_alert` /
`send_test_message`: either an HTTP response with a status code, or a raised
exception (caught by the `except` clause). -/
inductive WebhookResult where
  | response (status : Int)
  | sendFailure
deriving DecidableEq

/-- Outcome of the `psutil.disk_usage(partition)` call inside
`get_disk_usage`: either a successful sample or a raised exception. -/
inductive DiskRead where
  | ok (percent : ℚ)
  | readFailure
deriving DecidableEq

/-- Dict-style lookup in an association list (`d.get(k)` / `k in d`). -/
def lookupKey (k : String) : List (String × Int) → Option Int
  | [] => none
  | (k', v) :: rest => if k' = k then some v else lookupKey k rest

/-- Dict-style assignment `d[k] = v`: overwrite the existing binding of `k`,
or append a new one. -/
def setKey (k : String) (v : Int) : List (String × Int) → List (String × Int)
  | [] => [(k, v)]
  | (k', v') :: rest => if k' = k then (k, v) :: rest else (k', v') :: setKey k v rest

/-- Dict-style deletion `del d[k]`: remove every binding of `k` (a dict holds
at most one, so this is exactly removal of the key). -/
def eraseKey (k : String) : List (String × Int) → List (String × Int)
  | [] => []
  | (k', v') :: rest => if k' = k then eraseKey k rest else (k', v') :: eraseKey k rest

/-- The mutable `self.state` dict of `SystemMonitor`, in typed form:
`{"cpu_high_since": ..., "memory_high_since": ..., "disk_high_since": {...},
"last_alert_sent": {...}}`. -/
structure MonitorState where
  cpu_high_since : Option Int
  memory_high_since : Option Int
  disk_high_since : List (String × Int)
  last_alert_sent : List (String × Int)
deriving DecidableEq

/-- The fresh state returned by `load_state` when the state file is missing or
unreadable (lines 65–70 of the source). -/
def initial_state : MonitorState :=
  { cpu_high_since := none
    memory_high_since := none
    disk_high_since := []
    last_alert_sent := [] }

/-- The subset of `self.config` that `check_thresholds`,
`send_webhook_alert` and `should_send_alert` read. -/
structure Config where
  webhook_url : String
  cpu_threshold : ℚ
  memory_threshold : ℚ
  disk_threshold : ℚ
  sustained_threshold_minutes : Int
  disk_partitions : List String

/-- `timedelta(minutes=self.config["sustained_threshold_minutes"])`, in
seconds. -/
def alert_duration (cfg : Config) : Int :=
  60 * cfg.sustained_threshold_minutes

/-- `timedelta(hours=3)`, the hard-coded alert cooldown in
`should_send_alert`, in seconds. -/
def cooldownSeconds : Int := 10800

/-- `should_send_alert(alert_key, current_time)` (source lines 344–352):
`True` when no `last_alert_sent` entry exists for the key, else
`current_time - last_alert_time > timedelta(hours=3)` (strict). -/
def should_send_alert (st : MonitorState) (alert_key : String) (current_time : Int) : Bool :=
  match lookupKey alert_key st.last_alert_sent with
  | none => true
  | some last_alert_time => decide (current_time - last_alert_time > cooldownSeconds)

/-- `get_disk_usage(partition)` (source lines 185–192): returns
`psutil.disk_usage(partition).percent`, and returns `0` when that call
raises (the `except` clause prints and returns 0). -/
def get_disk_usage (r : DiskRead) : ℚ :=
  match r with
  | .ok percent => percent
  | .readFailure => 0

/-- The disk alert-key transform of source line 395:
`partition.replace("/", "_root" if partition == "/" else "")`.
For the partition `"/"` the single slash is replaced by `"_root"`; for any
other partition every `"/"` is replaced by the empty string, i.e. all slashes
are deleted. -/
def partition_key_transform (partition : String) : String :=
  if partition = "/" then "_root"
  else String.mk (partition.data.filter (fun c => c != '/'))

/-- `send_webhook_alert(alert_type, current_value, ..., partition=None)`
(source lines 194–247), with the network outcome passed in.  Returns the
Python return value paired with the updated state:
* empty `webhook_url` → return `False`, state untouched (lines 196–198);
* the alert key is `f"disk_{partition}"` (the raw partition path) when a
  partition is given, else the alert type (lines 209–215);
* on HTTP 200 the key's `last_alert_sent` entry is set to the message
  timestamp and `True` is returned (lines 237–240);
* on any other status code, or when `requests.post` raises, the state is
  untouched and `False` is returned (lines 241–247). -/
def send_webhook_alert (cfg : Config) (st : MonitorState) (alert_type : String)
    (partition : Option String) (timestamp : Int) (net : WebhookResult) :
    Bool × MonitorState :=
  if cfg.webhook_url = "" then (false, st)
  else
    let alert_key := match partition with
      | some p => "disk_" ++ p
      | none => alert_type
    match net with
    | .response status =>
        if status = 200 then
          (true, { st with last_alert_sent := setKey alert_key timestamp st.last_alert_sent })
        else (false, st)
    | .sendFailure => (false, st)

/-- The transition labels of the spec's ThresholdTracker, naming the five
branches of the per-metric logic in `check_thresholds`:
`SustainedBreach` labels the branch that evaluates `should_send_alert`
(source lines 368–370), `BreachStarted` the timer-start branch (363–365),
`BreachPending` the already-active-but-not-yet-sustained branch,
`BreachEnded` the reset branch entered with a set timer (371–374), `Normal`
the reset branch entered with no timer. -/
inductive BreachTransition where
  | BreachStarted
  | BreachPending
  | SustainedBreach
  | BreachEnded
  | Normal
deriving DecidableEq

/-- The per-metric-key breach-state step of `check_thresholds`
(source lines 362–374 for CPU; the memory and per-partition disk blocks are
verbatim copies over their own state slots): given the currently stored
`*_high_since` value, the sampled usage, the threshold, the current time and
the sustained duration, produce the new stored value and the transition
taken. -/
def tracker_update (since : Option Int) (usage threshold : ℚ)
    (now alertDur : Int) : Option Int × BreachTransition :=
  if usage ≥ threshold then
    match since with
    | none => (some now, .BreachStarted)
    | some t =>
        if now - t ≥ alertDur then (some t, .SustainedBreach)
        else (some t, .BreachPending)
  else
    match since with
    | some _ => (none, .BreachEnded)
    | none => (none, .Normal)

/-- The CPU block of `check_thresholds` (source lines 361–374), with the
sampled usage and the webhook outcome passed in.  On a sustained breach it
consults `should_send_alert "cpu"` and on approval calls
`send_webhook_alert`; a sub-threshold sample unconditionally clears
`cpu_high_since`. -/
def check_cpu (cfg : Config) (st : MonitorState) (now : Int) (cpu_usage : ℚ)
    (net : WebhookResult) : MonitorState :=
  if cpu_usage ≥ cfg.cpu_threshold then
    match st.cpu_high_since with
    | none => { st with cpu_high_since := some now }
    | some high_since =>
        if now - high_since ≥ alert_duration cfg then
          if should_send_alert st "cpu" now then
            (send_webhook_alert cfg st "cpu" none now net).2
          else st
        else st
  else { st with cpu_high_since := none }

/-- One iteration of the disk loop of `check_thresholds` (source lines
393–410) for a single `partition`, with the sampled usage and the webhook
outcome passed in.  The cooldown gate is consulted under the key
`f"disk_{partition_key}"` built from the collapsed path (lines 395, 404),
while a successful send records under `f"disk_{partition}"` inside
`send_webhook_alert`. -/
def check_disk_partition (cfg : Config) (st : MonitorState) (now : Int)
    (partition : String) (disk_usage : ℚ) (net : WebhookResult) : MonitorState :=
  if disk_usage ≥ cfg.disk_threshold then
    match lookupKey partition st.disk_high_since with
    | none => { st with disk_high_since := setKey partition now st.disk_high_since }
    | some high_since =>
        if now - high_since ≥ alert_duration cfg then
          if should_send_alert st ("disk_" ++ partition_key_transform partition) now then
            (send_webhook_alert cfg st "disk" (some partition) now net).2
          else st
        else st
  else
    match lookupKey partition st.disk_high_since with
    | some _ => { st with disk_high_since := eraseKey partition st.disk_high_since }
    | none => st

/-- The whole disk loop of `check_thresholds` (source lines 393–410): fold
`check_disk_partition` over the configured partitions, sampling each via
`get_disk_usage`. -/
def check_disks (cfg : Config) (now : Int) (reads : String → DiskRead)
    (nets : String → WebhookResult) (st : MonitorState) : MonitorState :=
  cfg.disk_partitions.foldl
    (fun s p => check_disk_partition cfg s now p (get_disk_usage (reads p)) (nets p)) st

/-- Iterate the per-metric step over a list of `(cycle time, sampled usage)`
pairs, collecting the transition taken on each cycle. -/
def cycleTransitions (threshold : ℚ) (alertDur : Int) :
    Option Int → List (Int × ℚ) → List BreachTransition
  | _, [] => []
  | since, (now, usage) :: rest =>
      let r := tracker_update since usage threshold now alertDur
      r.2 :: cycleTransitions threshold alertDur r.1 rest

/-- `n` consecutive one-minute cycles all sampling 95%, the cycle numbered
`i+1` occurring at `60*i` seconds. -/
def cycles95 (n : Nat) : List (Int × ℚ) :=
  (List.range n).map (fun i => ((60 * i : Int), (95 : ℚ)))

/-- Fourteen one-minute cycles of 95%, one cycle of 50% at `t = 840 s`, then
fifteen more cycles of 95% from `t = 900 s` on. -/
def dipCycles : List (Int × ℚ) :=
  cycles95 14 ++ [((840 : Int), (50 : ℚ))]
    ++ (List.range 15).map (fun i => ((900 + 60 * i : Int), (95 : ℚ)))

/-! ### The persisted state file (`load_state`, source lines 56–70)

`load_state` opens `self.state_file` and runs `json.load` on it inside a
`try`; any exception (missing file is checked before, a parse error raises
inside) falls through to returning the default dict.  A file that parses is
returned verbatim — there is no schema check.  We model the parsed JSON
document explicitly. -/

/-- A parsed JSON value, restricted to the shapes the state file uses:
`null`, strings (ISO timestamps) and objects. -/
inductive JVal where
  | null
  | str (s : String)
  | obj (fields : List (String × JVal))

/-- What reading and parsing the state file produced: the file is missing
(`os.path.exists` is false), `open`/`json.load` raised, or parsing succeeded
with a JSON document. -/
inductive StateFileRead where
  | missing
  | unreadable
  | parsed (v : JVal)

/-- The default dict `load_state` returns on a missing or unreadable state
file (source lines 65–70), as the JSON document it would round-trip to. -/
def state_file_default : JVal :=
  .obj [("cpu_high_since", .null), ("memory_high_since", .null),
        ("disk_high_since", .obj []), ("last_alert_sent", .obj [])]

/-- `load_state()` (source lines 56–70): the default dict when the file is
missing or `json.load` raised, and the parsed document verbatim otherwise. -/
def load_state : StateFileRead → JVal
  | .missing => state_file_default
  | .unreadable => state_file_default
  | .parsed v => v

/-- Whether a parsed state document carries a given top-level key.
`check_thresholds` indexes `self.state["cpu_high_since"]` etc. directly, so a
document lacking one of the four keys does not match the schema the rest of
the program expects. -/
def hasField (k : String) : JVal → Bool
  | .obj fields => fields.any (fun f => f.1 == k)
  | _ => false

/-! ### Concrete fixtures used by witnesses and counterexamples -/

/-- A configuration with a non-empty webhook URL, all thresholds 90, the
15-minute sustained duration, monitoring the partition `"/data"`. -/
def cfgEx : Config :=
  { webhook_url := "https://hooks.example/alert"
    cpu_threshold := 90, memory_threshold := 90, disk_threshold := 90
    sustained_threshold_minutes := 15
    disk_partitions := ["/data"] }

/-- `cfgEx` with the webhook URL left empty. -/
def cfgNoUrl : Config :=
  { cfgEx with webhook_url := "" }

/-- `cfgEx` monitoring two partitions, `"/data"` and `"/"`. -/
def cfgTwoDisks : Config :=
  { cfgEx with disk_partitions := ["/data", "/"] }

/-- State in which a disk breach on `"/data"` has been active since `t = 0`. -/
def stDataBreach : MonitorState :=
  { initial_state with disk_high_since := [("/data", 0)] }

/-- The state after a successful disk alert for `"/data"` sent at `t = 0`
from `initial_state`. -/
def stAfterDataAlert : MonitorState :=
  (send_webhook_alert cfgEx initial_state "disk" (some "/data") 0 (.response 200)).2

/-- `stAfterDataAlert` with a disk breach on `"/data"` recorded as active
since `t = -900 s`, so that at `t = 60 s` the breach is sustained. -/
def stAlertedAndBreached : MonitorState :=
  { stAfterDataAlert with disk_high_since := [("/data", -900)] }

/-- Disk reads in which sampling `"/data"` raises and sampling `"/"`
returns 95%. -/
def readsDataFail : String → DiskRead :=
  fun p => if p = "/data" then .readFailure else .ok 95

/-- A webhook outcome map answering HTTP 200 to every send. -/
def netsAll200 : String → WebhookResult :=
  fun _ => .response 200

/-! ### Supporting lemmas -/

/-- Looking up a key just set returns the value set. -/
theorem lookupKey_setKey_self (k : String) (v : Int) (l : List (String × Int)) :
    lookupKey k (setKey k v l) = some v := by
  induction l with
  | nil => simp [setKey, lookupKey]
  | cons hd tl ih =>
      obtain ⟨k', v'⟩ := hd
      by_cases h : k' = k
      · simp [setKey, h, lookupKey]
      · simp [setKey, h, lookupKey, ih]

/-- Looking up a key just deleted returns nothing. -/
theorem lookupKey_eraseKey_self (k : String) (l : List (String × Int)) :
    lookupKey k (eraseKey k l) = none := by
  induction l with
  | nil => simp [eraseKey, lookupKey]
  | cons hd tl ih =>
      obtain ⟨k', v'⟩ := hd
      by_cases h : k' = k
      · simp [eraseKey, h, ih]
      · simp [eraseKey, h, lookupKey, ih]

/-- `send_webhook_alert` only ever touches `last_alert_sent`; the breach
timers survive any send outcome unchanged. -/
theorem send_webhook_alert_preserves_timers (cfg : Config) (st : MonitorState)
    (alert_type : String) (partition : Option String) (ts : Int) (net : WebhookResult) :
    ((send_webhook_alert cfg st alert_type partition ts net).2).cpu_high_since
        = st.cpu_high_since
    ∧ ((send_webhook_alert cfg st alert_type partition ts net).2).memory_high_since
        = st.memory_high_since
    ∧ ((send_webhook_alert cfg st alert_type partition ts net).2).disk_high_since
        = st.disk_high_since := by
  by_cases hu : cfg.webhook_url = ""
  · simp [send_webhook_alert, hu]
  · cases net with
    | response s =>
        by_cases hs : s = 200 <;> simp [send_webhook_alert, hu, hs]
    | sendFailure => simp [send_webhook_alert, hu]

/-- The CPU block of `check_thresholds` moves `cpu_high_since` exactly as
`tracker_update` prescribes, whatever the alerting path does. -/
theorem check_cpu_tracks (cfg : Config) (st : MonitorState) (now : Int)
    (cpu_usage : ℚ) (net : WebhookResult) :
    (check_cpu cfg st now cpu_usage net).cpu_high_since
      = (tracker_update st.cpu_high_since cpu_usage cfg.cpu_threshold now
          (alert_duration cfg)).1 := by
  by_cases h1 : cpu_usage ≥ cfg.cpu_threshold
  · cases hs : st.cpu_high_since with
    | none => simp [check_cpu, tracker_update, h1, hs]
    | some t =>
        by_cases h2 : now - t ≥ alert_duration cfg
        · by_cases h3 : should_send_alert st "cpu" now
          · simp [check_cpu, tracker_update, h1, hs, h2, h3,
              (send_webhook_alert_preserves_timers cfg st "cpu" none now net).1]
          · simp [check_cpu, tracker_update, h1, hs, h2, h3]
        · simp [check_cpu, tracker_update, h1, hs, h2]
  · cases hs : st.cpu_high_since <;> simp [check_cpu, tracker_update, h1, hs]

/-- One disk iteration of `check_thresholds` moves the partition's
`disk_high_since` entry exactly as `tracker_update` prescribes. -/
theorem check_disk_partition_tracks (cfg : Config) (st : MonitorState) (now : Int)
    (partition : String) (disk_usage : ℚ) (net : WebhookResult) :
    lookupKey partition (check_disk_partition cfg st now partition disk_usage net).disk_high_since
      = (tracker_update (lookupKey partition st.disk_high_since) disk_usage
          cfg.disk_threshold now (alert_duration cfg)).1 := by
  by_cases h1 : disk_usage ≥ cfg.disk_threshold
  · cases hs : lookupKey partition st.disk_high_since with
    | none => simp [check_disk_partition, tracker_update, h1, hs, lookupKey_setKey_self]
    | some t =>
        by_cases h2 : now - t ≥ alert_duration cfg
        · by_cases h3 :
            should_send_alert st ("disk_" ++ partition_key_transform partition) now
          · simp [check_disk_partition, tracker_update, h1, hs, h2, h3,
              (send_webhook_alert_preserves_timers cfg st "disk" (some partition) now net).2.2]
          · simp [check_disk_partition, tracker_update, h1, hs, h2, h3]
        · simp [check_disk_partition, tracker_update, h1, hs, h2]
  · cases hs : lookupKey partition st.disk_high_since with
    | none => simp [check_disk_partition, tracker_update, h1, hs]
    | some t => simp [check_disk_partition, tracker_update, h1, hs, lookupKey_eraseKey_self]

/-! ### Claims -/

/-- C1: the cooldown gate for a disk partition is consulted under the
collapsed key `f"disk_{partition_key}"` (source lines 395, 404) while a
successful send records under the raw key `f"disk_{partition}"` (line 211).
For the partition `"/data"` the two keys differ, the gate never sees the
recorded entry, and a sustained breach one minute after a successful alert
passes the gate and re-records — the 3-hour cooldown never engages. -/
theorem c1_disk_alert_keys_diverge :
    ("disk_" ++ partition_key_transform "/data" ≠ "disk_" ++ "/data")
  ∧ lookupKey "disk_/data" stAfterDataAlert.last_alert_sent = some 0
  ∧ lookupKey ("disk_" ++ partition_key_transform "/data") stAfterDataAlert.last_alert_sent
      = none
  ∧ should_send_alert stAfterDataAlert ("disk_" ++ partition_key_transform "/data") 60 = true
  ∧ lookupKey "disk_/data"
      (check_disk_partition cfgEx stAlertedAndBreached 60 "/data" 95 (.response 200)).last_alert_sent
      = some 60 := by
  decide

/-- C2 (counterexample): fifteen one-minute cycles of 95% against threshold
90 and a 15-minute sustained duration produce no `SustainedBreach` at all —
cycle 15 sits at elapsed 14 minutes and is still `BreachPending`. -/
theorem c2_fifteen_cycles_not_sustained :
    BreachTransition.SustainedBreach ∉ cycleTransitions 90 900 none (cycles95 15)
  ∧ (cycleTransitions 90 900 none (cycles95 15)).getLast? = some .BreachPending := by
  decide

/-- C2 (amended): with a breach already active, the result is
`SustainedBreach` exactly when `now - since ≥ sustainedDuration` (inclusive),
re-evaluated on every cycle; in the 90/15-minute/1-minute scenario the first
`SustainedBreach` appears on cycle 16 (elapsed exactly 15 minutes), none of
the first 15 cycles is sustained, and cycle 17 is sustained again. -/
theorem c2_sustained_iff_elapsed :
    (∀ (t now alertDur : Int) (usage threshold : ℚ),
      (tracker_update (some t) usage threshold now alertDur).2
          = BreachTransition.SustainedBreach
        ↔ usage ≥ threshold ∧ now - t ≥ alertDur)
  ∧ (cycleTransitions 90 900 none (cycles95 16)).getLast? = some .SustainedBreach
  ∧ BreachTransition.SustainedBreach ∉ (cycleTransitions 90 900 none (cycles95 16)).take 15
  ∧ (cycleTransitions 90 900 none (cycles95 17)).getLast? = some .SustainedBreach := by
  refine ⟨?_, by decide, by decide, by decide⟩
  intro t now dur u thr
  by_cases h1 : u ≥ thr
  · by_cases h2 : now - t ≥ dur <;> simp [tracker_update, h1, h2]
  · simp [tracker_update, h1]

/-- C3: `should_send_alert` returns true exactly when no `last_alert_sent`
entry exists for the key or strictly more than the 3-hour cooldown has
elapsed since it; at exactly the cooldown it returns false, one second
later true. -/
theorem c3_cooldown_strictly_greater :
    (∀ (st : MonitorState) (key : String) (now : Int),
      should_send_alert st key now = true
        ↔ lookupKey key st.last_alert_sent = none
          ∨ ∃ last, lookupKey key st.last_alert_sent = some last
              ∧ now - last > cooldownSeconds)
  ∧ should_send_alert { initial_state with last_alert_sent := [("cpu", 0)] } "cpu" 10800
      = false
  ∧ should_send_alert { initial_state with last_alert_sent := [("cpu", 0)] } "cpu" 10801
      = true := by
  refine ⟨?_, by decide, by decide⟩
  intro st key now
  unfold should_send_alert
  cases h : lookupKey key st.last_alert_sent with
  | none => simp
  | some last => simp

/-- C4: `last_alert_sent` is overwritten only on a confirmed HTTP 200
delivery; any non-200 response or raised send leaves the state untouched and
returns `False`, and conversely any change to `last_alert_sent` certifies an
HTTP 200 outcome with `True` returned. -/
theorem c4_record_only_on_success :
    ∀ (cfg : Config) (st : MonitorState) (alert_type : String) (partition : Option String)
      (ts : Int) (net : WebhookResult),
      (net ≠ .response 200
        → send_webhook_alert cfg st alert_type partition ts net = (false, st))
    ∧ ((send_webhook_alert cfg st alert_type partition ts net).2.last_alert_sent
          ≠ st.last_alert_sent
        → net = .response 200
          ∧ (send_webhook_alert cfg st alert_type partition ts net).1 = true) := by
  intro cfg st a p ts net
  by_cases hu : cfg.webhook_url = ""
  · exact ⟨fun _ => by simp [send_webhook_alert, hu],
      fun hch => absurd (by simp [send_webhook_alert, hu]) hch⟩
  · cases net with
    | response s =>
        by_cases hs : s = 200
        · subst hs
          exact ⟨fun hne => absurd rfl hne,
            fun _ => ⟨rfl, by simp [send_webhook_alert, hu]⟩⟩
        · exact ⟨fun _ => by simp [send_webhook_alert, hu, hs],
            fun hch => absurd (by simp [send_webhook_alert, hu, hs]) hch⟩
    | sendFailure =>
        exact ⟨fun _ => by simp [send_webhook_alert, hu],
          fun hch => absurd (by simp [send_webhook_alert, hu]) hch⟩

/-- C4 witness: a raised send at `t = 5` leaves the fresh state untouched,
and an HTTP 200 send does change it with `True` returned. -/
theorem c4_record_only_on_success_witness :
    send_webhook_alert cfgEx initial_state "cpu" none 5 .sendFailure = (false, initial_state)
  ∧ (WebhookResult.response 200 = .response 200
      ∧ (send_webhook_alert cfgEx initial_state "cpu" none 5 (.response 200)).1 = true) :=
  ⟨(c4_record_only_on_success cfgEx initial_state "cpu" none 5 .sendFailure).1 (by decide),
   (c4_record_only_on_success cfgEx initial_state "cpu" none 5 (.response 200)).2 (by decide)⟩

/-- C5: a failed `psutil.disk_usage` read is converted to usage `0` (source
lines 185–192), which the threshold logic treats as a normal sub-threshold
sample: the active breach timer for `"/data"` (set at `t = 0`) is deleted by
the cycle instead of being left unchanged, while the other partition `"/"`
still runs and starts its own timer. -/
theorem c5_read_failure_clears_breach :
    get_disk_usage .readFailure = 0
  ∧ lookupKey "/data"
      (check_disks cfgTwoDisks 60 readsDataFail netsAll200 stDataBreach).disk_high_since
      = none
  ∧ lookupKey "/"
      (check_disks cfgTwoDisks 60 readsDataFail netsAll200 stDataBreach).disk_high_since
      = some 60 := by
  decide

/-- C6: a single sub-threshold sample unconditionally clears the stored
breach timer (for disks the entry is deleted), a later at-or-above sample
restarts the timer from scratch at its own time, and in the
14-high/1-low/15-high one-minute scenario no `SustainedBreach` ever fires. -/
theorem c6_subthreshold_resets :
    (∀ (since : Option Int) (usage threshold : ℚ) (now alertDur : Int),
      usage < threshold →
      tracker_update since usage threshold now alertDur
        = (none, if since.isSome then .BreachEnded else .Normal))
  ∧ (∀ (s0 : Option Int) (u1 u2 threshold : ℚ) (n1 n2 alertDur : Int),
      u1 < threshold → u2 ≥ threshold →
      tracker_update ((tracker_update s0 u1 threshold n1 alertDur).1) u2 threshold n2 alertDur
        = (some n2, .BreachStarted))
  ∧ (∀ (cfg : Config) (st : MonitorState) (now : Int) (p : String) (u : ℚ)
        (net : WebhookResult),
      u < cfg.disk_threshold →
      lookupKey p (check_disk_partition cfg st now p u net).disk_high_since = none)
  ∧ BreachTransition.SustainedBreach ∉ cycleTransitions 90 900 none dipCycles := by
  refine ⟨?_, ?_, ?_, by decide⟩
  · intro since u thr now dur h
    have hge : ¬ (u ≥ thr) := not_le.mpr h
    cases since <;> simp [tracker_update, hge]
  · intro s0 u1 u2 thr n1 n2 dur h1 h2
    have hge : ¬ (u1 ≥ thr) := not_le.mpr h1
    have hn : (tracker_update s0 u1 thr n1 dur).1 = none := by
      cases s0 <;> simp [tracker_update, hge]
    rw [hn]
    simp [tracker_update, h2]
  · intro cfg st now p u net h
    have hge : ¬ (u ≥ cfg.disk_threshold) := not_le.mpr h
    cases hl : lookupKey p st.disk_high_since with
    | none => simp [check_disk_partition, hge, hl]
    | some t => simp [check_disk_partition, hge, hl, lookupKey_eraseKey_self]

/-- C6 witness: a 50% sample at `t = 840` ends the breach active since 0,
the 95% sample at `t = 900` restarts the timer at 900, and a 50% disk sample
deletes the `"/data"` entry. -/
theorem c6_subthreshold_resets_witness :
    tracker_update (some 0) 50 90 840 900 = (none, .BreachEnded)
  ∧ tracker_update ((tracker_update (some 0) 50 90 840 900).1) 95 90 900 900
      = (some 900, .BreachStarted)
  ∧ lookupKey "/data"
      (check_disk_partition cfgEx stDataBreach 60 "/data" 50 .sendFailure).disk_high_since
      = none :=
  ⟨by simpa using c6_subthreshold_resets.1 (some 0) 50 90 840 900 (by decide),
   c6_subthreshold_resets.2.1 (some 0) 50 95 90 840 900 900 (by decide) (by decide),
   c6_subthreshold_resets.2.2.1 cfgEx stDataBreach 60 "/data" 50 .sendFailure (by decide)⟩

/-- C7: a sample exactly equal to the threshold takes the `>=` branch: with
no timer it starts one (`BreachStarted`), with a timer it keeps it and the
transition is never `BreachEnded` or `Normal`. -/
theorem c7_equality_counts_as_breach :
    ∀ (threshold : ℚ) (now alertDur : Int),
      tracker_update none threshold threshold now alertDur
          = (some now, .BreachStarted)
    ∧ ∀ t : Int,
        (tracker_update (some t) threshold threshold now alertDur).1 = some t
      ∧ (tracker_update (some t) threshold threshold now alertDur).2 ≠ .BreachEnded
      ∧ (tracker_update (some t) threshold threshold now alertDur).2 ≠ .Normal := by
  intro thr now dur
  have h : thr ≥ thr := le_refl thr
  refine ⟨by simp [tracker_update, h], ?_⟩
  intro t
  by_cases h2 : now - t ≥ dur <;> simp [tracker_update, h, h2]

/-- C8 (counterexample): the empty JSON object parses, lacks the
`cpu_high_since` key the check cycle indexes, and `load_state` returns it
verbatim rather than the default empty state. -/
theorem c8_schema_mismatch_kept :
    hasField "cpu_high_since" (JVal.obj []) = false
  ∧ load_state (.parsed (JVal.obj [])) = JVal.obj []
  ∧ load_state (.parsed (JVal.obj [])) ≠ state_file_default := by
  refine ⟨rfl, rfl, ?_⟩
  intro h
  simp [load_state, state_file_default] at h

/-- C8 (amended): `load_state` never raises; a missing or unreadable state
file yields the default empty state, and any file that parses is returned
as-is, with no schema validation. -/
theorem c8_load_never_raises :
    load_state .missing = state_file_default
  ∧ load_state .unreadable = state_file_default
  ∧ ∀ v, load_state (.parsed v) = v :=
  ⟨rfl, rfl, fun _ => rfl⟩

/-- C9: with an active breach whose persisted start lies in the future of
`now` and a non-negative sustained duration, the update runs without error
and never reports `SustainedBreach`: the negative elapsed time cannot reach
the duration. -/
theorem c9_future_since_not_sustained :
    ∀ (t now alertDur : Int) (usage threshold : ℚ),
      now < t → 0 ≤ alertDur →
      (tracker_update (some t) usage threshold now alertDur).2
        ≠ BreachTransition.SustainedBreach := by
  intro t now dur u thr h1 h2
  by_cases hb : u ≥ thr
  · have hlt : ¬ (now - t ≥ dur) := by omega
    simp [tracker_update, hb, hlt]
  · simp [tracker_update, hb]

/-- C9 witness: a breach recorded as starting at `t = 100` evaluated at
`now = 0` with the 15-minute duration is not sustained. -/
theorem c9_future_since_not_sustained_witness :
    (0 : Int) < 100 ∧ (0 : Int) ≤ 900
  ∧ (tracker_update (some 100) 95 90 0 900).2 ≠ BreachTransition.SustainedBreach :=
  ⟨by decide, by decide,
   c9_future_since_not_sustained 100 0 900 95 90 (by decide) (by decide)⟩

/-- C10: with an empty webhook URL, `send_webhook_alert` returns `False`
before building or posting anything, the state (in particular
`last_alert_sent`) is untouched, and the cooldown gate answers afterwards
exactly as before, so every later eligible cycle attempts again. -/
theorem c10_empty_url_no_send :
    ∀ (cfg : Config) (st : MonitorState) (alert_type : String) (partition : Option String)
      (ts : Int) (net : WebhookResult),
      cfg.webhook_url = "" →
      send_webhook_alert cfg st alert_type partition ts net = (false, st)
    ∧ ∀ (key : String) (t' : Int),
        should_send_alert (send_webhook_alert cfg st alert_type partition ts net).2 key t'
          = should_send_alert st key t' := by
  intro cfg st a p ts net hu
  refine ⟨by simp [send_webhook_alert, hu], ?_⟩
  intro key t'
  simp [send_webhook_alert, hu]

/-- C10 witness: the empty-URL configuration at a would-be-successful send
still returns `False` with the state untouched. -/
theorem c10_empty_url_no_send_witness :
    send_webhook_alert cfgNoUrl initial_state "cpu" none 0 (.response 200)
      = (false, initial_state) :=
  (c10_empty_url_no_send cfgNoUrl initial_state "cpu" none 0 (.response 200) rfl).1

end SystemMonitor
